import Mathlib

/-!
# Incident-service core: shallow embedding and verification

This file embeds the core of `patient-care-platform/incident-service/app.py`:
the incident lifecycle state machine (acknowledge / start / add-note / resolve
endpoints), the time-metrics calculator, the auto-assignment orchestrator and
the alert-ingestion callback.  Database rows become Lean structures, the
stateful endpoints become pure functions from the fetched row (an
`Option Incident`, `none` = unknown id) to the written row, the HTTP response
and the history entries appended by the call, and the external on-call roster
service becomes an explicit environment of HTTP outcomes.  Wall-clock reads
(`datetime.now()`, `time.time()`) are passed in as explicit parameters.
-/

namespace IncidentService

/-- Incident lifecycle statuses, exactly the string values the service writes
into `incidents.status` (`'OPEN'`, `'ASSIGNED'`, `'ACKNOWLEDGED'`,
`'IN_PROGRESS'`, `'RESOLVED'`). -/
inductive Status where
  | OPEN
  | ASSIGNED
  | ACKNOWLEDGED
  | IN_PROGRESS
  | RESOLVED
deriving DecidableEq, Repr, Fintype

/-- One row of the `incidents` table, with the columns the service reads or
writes.  Timestamps are epoch seconds (`Int`); absent (SQL NULL) values are
`none`. -/
structure Incident where
  incident_id : String
  alert_id : String
  patient_id : String
  severity : String
  status : Status
  created_at : Option Int := none
  acknowledged_at : Option Int := none
  in_progress_at : Option Int := none
  resolved_at : Option Int := none
  response_time_seconds : Option Int := none
  resolution_time_seconds : Option Int := none
  total_time_seconds : Option Int := none
  resolution_notes : Option String := none
  resolved_by_employee_id : Option String := none
  assigned_employee_id : Option String := none
  intermediate_notes : List String := []
deriving DecidableEq, Repr

/-- One row of the `incident_history` audit table, as inserted by
`add_to_history` (app.py 92-111). -/
structure HistoryEntry where
  incident_id : String
  employee_id : Option String
  employee_name : Option String
  action : String
  previous_status : Option Status
  new_status : Option Status
  note : Option String
  timestamp : Int
deriving DecidableEq, Repr

/-- The distinguishable error responses of the endpoints (app.py returns them
as HTTP 404/400 with a message).  `AlreadyResolved` is the 400 response
`'Incident already resolved'` of the resolve endpoint; `InvalidTransition`
carries the `'Cannot ...'` message of the acknowledge/start endpoints;
`ValidationError` carries the input-validation messages. -/
inductive ApiError where
  | NotFound
  | InvalidTransition (msg : String)
  | AlreadyResolved
  | ValidationError (msg : String)
deriving DecidableEq, Repr

/-- The spec's §7 error taxonomy.  It has no separate `AlreadyResolved` kind:
a resolve attempted on an already-`RESOLVED` incident is a status-precondition
failure, which §7 classifies as `InvalidTransition` (§4.1 merely gives that
instance the name `AlreadyResolved`). -/
inductive ErrorKind where
  | notFound
  | invalidTransition
  | validation
deriving DecidableEq, Repr

/-- Classification of a surfaced error under the §7 taxonomy. -/
def ApiError.kind : ApiError → ErrorKind
  | .NotFound => .notFound
  | .InvalidTransition _ => .invalidTransition
  | .AlreadyResolved => .invalidTransition
  | .ValidationError _ => .validation

/-- What one endpoint call does to the system: the `incidents` row after the
call (the row is only written on the success path; every error path of the
source returns before its `UPDATE`), the HTTP response, and the history rows
appended by the call. -/
structure EndpointResult where
  store : Option Incident
  response : Except ApiError Incident
  history : List HistoryEntry
deriving Repr

/-- `calculate_time_metrics` (app.py 113-157): recomputes and overwrites the
three duration columns from the row's timestamps.  `total_seconds()` of a
difference of second-resolution timestamps is the integer difference. -/
def calculate_time_metrics (inc : Incident) : Incident :=
  { inc with
    response_time_seconds :=
      match inc.acknowledged_at, inc.created_at with
      | some a, some c => some (a - c)
      | _, _ => none
    resolution_time_seconds :=
      match inc.resolved_at, inc.acknowledged_at with
      | some r, some a => some (r - a)
      | _, _ => none
    total_time_seconds :=
      match inc.resolved_at, inc.created_at with
      | some r, some c => some (r - c)
      | _, _ => none }

/-- `acknowledge_incident` (app.py 426-500), `PATCH /incidents/<id>/acknowledge`.
Guard: `status not in ['ASSIGNED', 'OPEN']` is rejected.  On success the row
gets status `ACKNOWLEDGED` and `acknowledged_at`, a history entry is appended
and `calculate_time_metrics` runs before the updated row is returned.  (The
best-effort mark-notification-read call, app.py 478-487, has no effect on the
store and is omitted.) -/
def acknowledge_incident (store : Option Incident) (employee_id employee_name : Option String)
    (now : Int) : EndpointResult :=
  match store with
  | none => ⟨none, .error .NotFound, []⟩
  | some incident =>
    if incident.status ≠ .ASSIGNED ∧ incident.status ≠ .OPEN then
      ⟨some incident, .error (.InvalidTransition "Cannot acknowledge incident with status"), []⟩
    else
      let updated := calculate_time_metrics
        { incident with status := .ACKNOWLEDGED, acknowledged_at := some now }
      ⟨some updated, .ok updated,
        [⟨incident.incident_id, employee_id, employee_name, "ACKNOWLEDGED",
          some incident.status, some .ACKNOWLEDGED,
          some "Employee acknowledged the incident", now⟩]⟩

/-- `start_incident` (app.py 502-562), `PATCH /incidents/<id>/start`.
Guard: `status != 'ACKNOWLEDGED'` is rejected.  On success the row gets status
`IN_PROGRESS` and `in_progress_at`; the history note defaults to
`'Started working on incident'`. -/
def start_incident (store : Option Incident) (employee_id employee_name note0 : Option String)
    (now : Int) : EndpointResult :=
  match store with
  | none => ⟨none, .error .NotFound, []⟩
  | some incident =>
    if incident.status ≠ .ACKNOWLEDGED then
      ⟨some incident,
        .error (.InvalidTransition "Cannot start incident with status. Must be ACKNOWLEDGED first."),
        []⟩
    else
      let note := note0.getD "Started working on incident"
      let updated := { incident with status := .IN_PROGRESS, in_progress_at := some now }
      ⟨some updated, .ok updated,
        [⟨incident.incident_id, employee_id, employee_name, "STATUS_CHANGED",
          some .ACKNOWLEDGED, some .IN_PROGRESS, some note, now⟩]⟩

/-- Python's `str.strip()`: remove leading and trailing whitespace. -/
def py_strip (s : String) : String :=
  ⟨((s.data.dropWhile Char.isWhitespace).reverse.dropWhile Char.isWhitespace).reverse⟩

/-- `'%02d'`-style rendering of one clock field, as `strftime` does. -/
def two_digits (n : Nat) : String :=
  if n < 10 then "0" ++ toString n else toString n

/-- `datetime.now().strftime('%H:%M:%S')` for a clock reading `h:m:s`. -/
def format_hms (h m s : Nat) : String :=
  two_digits h ++ ":" ++ two_digits m ++ ":" ++ two_digits s

/-- The string `add_note` actually appends to `intermediate_notes`
(app.py 594): the submitted note prefixed with `"[HH:MM:SS] "`. -/
def stored_note (h m s : Nat) (note : String) : String :=
  "[" ++ format_hms h m s ++ "] " ++ note

/-- `add_note` (app.py 564-622), `POST /incidents/<id>/notes`.  Validation
(`not note or len(note.strip()) == 0`) runs before the row is fetched; there is
no status guard.  On success the timestamped note is appended to the
`intermediate_notes` array and the history entry records the raw note; the
status columns are not written.  `h`/`m`/`s` is the wall clock used for the
prefix, `now` the history timestamp. -/
def add_note (store : Option Incident) (employee_id employee_name note : Option String)
    (h m s : Nat) (now : Int) : EndpointResult :=
  if note = none ∨ py_strip (note.getD "") = "" then
    ⟨store, .error (.ValidationError "Note cannot be empty"), []⟩
  else
    match store with
    | none => ⟨none, .error .NotFound, []⟩
    | some incident =>
      let text := note.getD ""
      let updated := { incident with
        intermediate_notes := incident.intermediate_notes ++ [stored_note h m s text] }
      ⟨some updated, .ok updated,
        [⟨incident.incident_id, employee_id, employee_name, "NOTE_ADDED",
          some incident.status, some incident.status, some text, now⟩]⟩

/-- `resolve_incident` (app.py 624-693), `PATCH /incidents/<id>/resolve`.
Validation (`not resolution_notes or len(resolution_notes.strip()) < 10`) runs
before the row is fetched; a `RESOLVED` row is rejected with
`'Incident already resolved'`.  On success the row gets status `RESOLVED`,
`resolved_at`, the notes and the resolving employee id, and
`calculate_time_metrics` runs before the updated row is returned. -/
def resolve_incident (store : Option Incident)
    (employee_id employee_name resolution_notes : Option String) (now : Int) : EndpointResult :=
  if resolution_notes = none ∨ (py_strip (resolution_notes.getD "")).length < 10 then
    ⟨store, .error (.ValidationError "Resolution notes are required (minimum 10 characters)"), []⟩
  else
    match store with
    | none => ⟨none, .error .NotFound, []⟩
    | some incident =>
      if incident.status = .RESOLVED then
        ⟨some incident, .error .AlreadyResolved, []⟩
      else
        let notes := resolution_notes.getD ""
        let updated := calculate_time_metrics
          { incident with
            status := .RESOLVED
            resolved_at := some now
            resolution_notes := some notes
            resolved_by_employee_id := employee_id }
        ⟨some updated, .ok updated,
          [⟨incident.incident_id, employee_id, employee_name, "RESOLVED",
            some incident.status, some .RESOLVED, some notes, now⟩]⟩

/-- `ALERT_ROLE_MAPPING` (app.py 25-81) together with the `.get(alert_type,
['NURSE'])` default lookup of app.py 190: alert category to the ordered role
priority list, `['NURSE']` for any unmapped category. -/
def ALERT_ROLE_MAPPING (a : String) : List String :=
  if a = "CARDIAC_ARREST" then ["EMERGENCY_DOCTOR", "CARDIOLOGIST"]
  else if a = "CARDIAC_ABNORMAL" then ["EMERGENCY_DOCTOR", "CARDIOLOGIST"]
  else if a = "MYOCARDIAL_INFARCTION" then ["EMERGENCY_DOCTOR", "CARDIOLOGIST"]
  else if a = "RESPIRATORY_DISTRESS" then ["EMERGENCY_DOCTOR", "PULMONOLOGIST", "NURSE"]
  else if a = "O2_SATURATION_LOW" then ["NURSE", "EMERGENCY_DOCTOR", "PULMONOLOGIST"]
  else if a = "APNEA_DETECTED" then ["EMERGENCY_DOCTOR", "NURSE"]
  else if a = "VENTILATOR_ALARM" then ["NURSE", "EMERGENCY_DOCTOR", "PULMONOLOGIST"]
  else if a = "STROKE_SUSPECTED" then ["EMERGENCY_DOCTOR", "NEUROLOGIST"]
  else if a = "SEIZURE_DETECTED" then ["NURSE", "EMERGENCY_DOCTOR", "NEUROLOGIST"]
  else if a = "INTRACRANIAL_PRESSURE_HIGH" then ["EMERGENCY_DOCTOR", "NEUROLOGIST"]
  else if a = "HYPERTENSION_CRISIS" then ["NURSE", "EMERGENCY_DOCTOR"]
  else if a = "HYPOTENSION_SEVERE" then ["NURSE", "EMERGENCY_DOCTOR"]
  else if a = "HEMORRHAGE_MAJOR" then ["EMERGENCY_DOCTOR", "SURGEON"]
  else if a = "TRAUMA_SEVERE" then ["EMERGENCY_DOCTOR", "SURGEON"]
  else if a = "HYPOGLYCEMIA_SEVERE" then ["NURSE", "EMERGENCY_DOCTOR"]
  else if a = "HYPERGLYCEMIA_SEVERE" then ["NURSE", "EMERGENCY_DOCTOR"]
  else if a = "DIABETIC_KETOACIDOSIS" then ["EMERGENCY_DOCTOR", "ENDOCRINOLOGIST"]
  else if a = "SEPSIS_SUSPECTED" then ["EMERGENCY_DOCTOR", "INFECTIOUS_DISEASE"]
  else if a = "FEVER_HIGH" then ["NURSE"]
  else if a = "MEDICATION_DELAYED" then ["NURSE"]
  else if a = "MEDICATION_ERROR" then ["NURSE", "EMERGENCY_DOCTOR"]
  else if a = "ADVERSE_REACTION" then ["NURSE", "EMERGENCY_DOCTOR"]
  else if a = "IV_INFILTRATION" then ["NURSE"]
  else if a = "EQUIPMENT_MALFUNCTION" then ["BIOMEDICAL_ENGINEER", "NURSE"]
  else if a = "EQUIPMENT_LOW_BATTERY" then ["BIOMEDICAL_ENGINEER", "NURSE"]
  else if a = "FALL_DETECTED" then ["NURSE", "EMERGENCY_DOCTOR"]
  else if a = "BED_EXIT_UNAUTHORIZED" then ["NURSE"]
  else if a = "RESTRAINT_ALERT" then ["NURSE", "EMERGENCY_DOCTOR"]
  else if a = "FETAL_DISTRESS" then ["EMERGENCY_DOCTOR", "OBSTETRICIAN"]
  else if a = "LABOR_COMPLICATIONS" then ["NURSE", "OBSTETRICIAN"]
  else if a = "AGITATION_SEVERE" then ["NURSE", "EMERGENCY_DOCTOR", "PSYCHIATRIST"]
  else if a = "SUICIDE_RISK" then ["PSYCHIATRIST", "NURSE", "EMERGENCY_DOCTOR"]
  else ["NURSE"]

/-- The keys of the `ALERT_ROLE_MAPPING` dict; every other category is
unmapped and takes the `['NURSE']` default. -/
def mapped_alert_types : List String :=
  ["CARDIAC_ARREST", "CARDIAC_ABNORMAL", "MYOCARDIAL_INFARCTION",
   "RESPIRATORY_DISTRESS", "O2_SATURATION_LOW", "APNEA_DETECTED", "VENTILATOR_ALARM",
   "STROKE_SUSPECTED", "SEIZURE_DETECTED", "INTRACRANIAL_PRESSURE_HIGH",
   "HYPERTENSION_CRISIS", "HYPOTENSION_SEVERE", "HEMORRHAGE_MAJOR", "TRAUMA_SEVERE",
   "HYPOGLYCEMIA_SEVERE", "HYPERGLYCEMIA_SEVERE", "DIABETIC_KETOACIDOSIS",
   "SEPSIS_SUSPECTED", "FEVER_HIGH", "MEDICATION_DELAYED", "MEDICATION_ERROR",
   "ADVERSE_REACTION", "IV_INFILTRATION", "EQUIPMENT_MALFUNCTION", "EQUIPMENT_LOW_BATTERY",
   "FALL_DETECTED", "BED_EXIT_UNAUTHORIZED", "RESTRAINT_ALERT",
   "FETAL_DISTRESS", "LABOR_COMPLICATIONS", "AGITATION_SEVERE", "SUICIDE_RISK"]

/-- One available-staff record returned by `GET /oncall/current?role=…`
(app.py reads `employee_id`, `name`, `tier`, and `email`/`phone` with `''`
defaults). -/
structure Candidate where
  employee_id : String
  name : String
  email : String
  phone : String
  tier : Int
deriving DecidableEq, Repr

/-- Outcome of one `requests` call: `raises` when the call raises (timeout,
connection error, unparsable body), otherwise the HTTP status and parsed
body.  `auto_assign_incident` wraps its whole role loop in one
`try/except`, so a raised call aborts the loop. -/
inductive HttpResult (α : Type) where
  | raises
  | response (status : Nat) (body : α)
deriving DecidableEq, Repr

/-- Parsed body of a `POST /oncall/assign` response: app.py 217-220 reads
`incident.severity` and `incident.patient_id` with `'MEDIUM'` / `'Unknown'`
defaults. -/
structure AssignBody where
  severity : Option String
  patient_id : Option String
deriving DecidableEq, Repr

/-- The external on-call roster service, as the orchestrator sees it: the
outcome of the availability query for each role, and the outcome of the claim
request for each candidate employee id (the incident id is fixed within one
run). -/
structure RosterEnv where
  query : String → HttpResult (List Candidate)
  claim : String → HttpResult AssignBody

/-- `min(available_staff, key=lambda x: x['tier'])` (app.py 204): the first
candidate attaining the minimum tier, in roster-reported order (Python's `min`
replaces the running best only on a strictly smaller key). -/
def min_by_tier (best : Candidate) : List Candidate → Candidate
  | [] => best
  | c :: cs => min_by_tier (if c.tier < best.tier then c else best) cs

/-- Modelled from the spec: the state change performed by the external on-call
service's `POST /oncall/assign` endpoint when it accepts a claim.  That
service's code is not part of this source tree (only its caller
`auto_assign_incident` is); per §4.1, `assign(incident, staffId)` is valid
only from `OPEN`, sets status `ASSIGNED` and records the claimed staff
member's identifier on the incident. -/
def oncall_assign_effect (inc : Incident) (staff_id : String) : Incident :=
  if inc.status = .OPEN then
    { inc with status := .ASSIGNED, assigned_employee_id := some staff_id }
  else inc

/-- History row written by a successful auto-assignment (app.py 225-233):
previous/new status are the literals `'OPEN'`/`'ASSIGNED'`. -/
def assign_history_entry (inc : Incident) (alert_type : String) (staff : Candidate)
    (now : Int) : HistoryEntry :=
  ⟨inc.incident_id, some staff.employee_id, some staff.name, "ASSIGNED",
   some .OPEN, some .ASSIGNED,
   some ("Auto-assigned based on alert type: " ++ alert_type), now⟩

/-- The `INCIDENT_ASSIGNED` notification payload (app.py 236-255), with the
nested `data` object flattened. -/
structure Notification where
  type : String
  employee_id : String
  employee_name : String
  employee_email : String
  employee_phone : String
  incident_id : String
  alert_type : String
  severity : String
  patient_id : String
  title : String
  message : String
  data_incident_id : String
  data_alert_type : String
  data_role : String
  data_tier : Int
  timestamp : Int
deriving DecidableEq, Repr

/-- The notification enqueued for a successful assignment. -/
def assign_notification (inc : Incident) (alert_type : String) (staff : Candidate)
    (role : String) (abody : AssignBody) (now : Int) : Notification :=
  let severity := abody.severity.getD "MEDIUM"
  let patient_id := abody.patient_id.getD "Unknown"
  ⟨"INCIDENT_ASSIGNED", staff.employee_id, staff.name, staff.email, staff.phone,
   inc.incident_id, alert_type, severity, patient_id,
   "New " ++ severity ++ " Incident Assigned",
   alert_type ++ " incident for patient " ++ patient_id ++ " has been assigned to you.",
   inc.incident_id, alert_type, role, staff.tier, now⟩

/-- Everything one `auto_assign_incident` run produces: the returned boolean,
the incident row afterwards, the history rows and notifications it appended,
and the trace of roles whose roster query was issued (in order). -/
structure AssignResult where
  success : Bool
  incident : Incident
  history : List HistoryEntry
  notifications : List Notification
  queried : List String
deriving Repr

/-- The role loop of `auto_assign_incident` (app.py 192-262).  A raised
network call (`HttpResult.raises`) propagates to the function-level
`except` (app.py 264-266), which returns `False` without visiting further
roles; a non-200 query, an empty candidate list, or a non-200 claim response
falls through to the next role; a 200 claim response writes the `ASSIGNED`
history row, enqueues the notification and returns `True` immediately. -/
def auto_assign_loop (env : RosterEnv) (inc : Incident) (alert_type : String) (now : Int) :
    List String → AssignResult
  | [] => ⟨false, inc, [], [], []⟩
  | role :: rest =>
    match env.query role with
    | .raises => ⟨false, inc, [], [], [role]⟩
    | .response code cands =>
      if code = 200 then
        match cands with
        | [] =>
          let r := auto_assign_loop env inc alert_type now rest
          { r with queried := role :: r.queried }
        | c :: cs =>
          let staff := min_by_tier c cs
          match env.claim staff.employee_id with
          | .raises => ⟨false, inc, [], [], [role]⟩
          | .response acode abody =>
            if acode = 200 then
              ⟨true, oncall_assign_effect inc staff.employee_id,
               [assign_history_entry inc alert_type staff now],
               [assign_notification inc alert_type staff role abody now],
               [role]⟩
            else
              let r := auto_assign_loop env inc alert_type now rest
              { r with queried := role :: r.queried }
      else
        let r := auto_assign_loop env inc alert_type now rest
        { r with queried := role :: r.queried }

/-- `auto_assign_incident` (app.py 186-266): run the role loop over the
priority list for the alert type. -/
def auto_assign_incident (env : RosterEnv) (inc : Incident) (alert_type : String)
    (now : Int) : AssignResult :=
  auto_assign_loop env inc alert_type now (ALERT_ROLE_MAPPING alert_type)

/-- A role yields no successful claim without raising: its query returned
non-200 or no candidates, or the claim request for its selected candidate
returned non-200.  These are exactly the app.py branches that continue the
`for` loop. -/
def role_falls_through (env : RosterEnv) (role : String) : Bool :=
  match env.query role with
  | .raises => false
  | .response code cands =>
    if code = 200 then
      match cands with
      | [] => true
      | c :: cs =>
        match env.claim (min_by_tier c cs).employee_id with
        | .raises => false
        | .response acode _ => acode ≠ 200
    else true

/-- `f"INC-{int(time.time() * 1000)}"` (app.py 271): the incident identifier
generated from the millisecond wall clock observed by the creating call. -/
def gen_incident_id (clock_ms : Nat) : String :=
  "INC-" ++ toString clock_ms

/-- Payload of an inbound alert message (§6). -/
structure Alert where
  alert_id : String
  patient_id : String
  alert_type : String
  severity : String
deriving DecidableEq, Repr

/-- What one `create_incident_from_alert` call produces: the returned id
(`None` on failure), the incident row afterwards, the history rows and
notifications appended, and whether auto-assignment succeeded. -/
structure CreateResult where
  incident_id : Option String
  incident : Option Incident
  history : List HistoryEntry
  notifications : List Notification
  assigned : Bool
deriving Repr

/-- The freshly inserted `incidents` row (app.py 278-288): status `OPEN`,
`created_at` stamped, everything else NULL/empty. -/
def new_incident (alert : Alert) (clock_ms : Nat) (now : Int) : Incident :=
  { incident_id := gen_incident_id clock_ms
    alert_id := alert.alert_id
    patient_id := alert.patient_id
    severity := alert.severity
    status := .OPEN
    created_at := some now }

/-- `create_incident_from_alert` (app.py 268-305): insert the `OPEN` row,
append the `CREATED` history entry, then run auto-assignment.  Its
function-level `try/except` turns every failure into a `None` return — the
caller never sees an exception.  `db_ok` models whether the store is
reachable (app.py 273-275 returns `None` when it is not). -/
def create_incident_from_alert (db_ok : Bool) (env : RosterEnv) (alert : Alert)
    (clock_ms : Nat) (now : Int) : CreateResult :=
  if db_ok then
    let inc := new_incident alert clock_ms now
    let created : HistoryEntry :=
      ⟨inc.incident_id, none, some "SYSTEM", "CREATED", none, some .OPEN,
       some ("Created from alert " ++ alert.alert_id), now⟩
    let r := auto_assign_incident env inc alert.alert_type now
    ⟨some inc.incident_id, some r.incident, created :: r.history, r.notifications, r.success⟩
  else
    ⟨none, none, [], [], false⟩

/-- Disposition of a consumed message: `basic_ack`, or `basic_nack` with
`requeue=False` (dropped, not retried or dead-lettered). -/
inductive MqDisposition where
  | acked
  | nacked_no_requeue
deriving DecidableEq, Repr

/-- `process_alert_message` (app.py 307-315): deserialize the body, run
`create_incident_from_alert` (which runs the orchestrator), then ack.  A
raised deserialization (`body = none`) is the only step that can raise —
`create_incident_from_alert` swallows its own failures — and it triggers
`basic_nack(requeue=False)`. -/
def process_alert_message (db_ok : Bool) (env : RosterEnv) (body : Option Alert)
    (clock_ms : Nat) (now : Int) : MqDisposition × CreateResult :=
  match body with
  | some alert => (.acked, create_incident_from_alert db_ok env alert clock_ms now)
  | none => (.nacked_no_requeue, ⟨none, none, [], [], false⟩)

/-- The status edges of §4.1: the assignment edge, the two acknowledge edges,
the start edge, and `resolve` from every non-terminal status. -/
def allowed_edge : Status → Status → Bool
  | .OPEN, .ASSIGNED => true
  | .OPEN, .ACKNOWLEDGED => true
  | .ASSIGNED, .ACKNOWLEDGED => true
  | .ACKNOWLEDGED, .IN_PROGRESS => true
  | .OPEN, .RESOLVED => true
  | .ASSIGNED, .RESOLVED => true
  | .ACKNOWLEDGED, .RESOLVED => true
  | .IN_PROGRESS, .RESOLVED => true
  | _, _ => false

/-! ### Decimal rendering of the millisecond clock

`gen_incident_id` renders the clock with `Nat.repr`.  To reason about
distinctness and ordering of the generated identifiers we give the fuel-free
description `decChars` of `Nat.toDigits 10` and a verified decimal decoder. -/

/-- Decimal digit characters of `n`, most significant first. -/
def decChars (n : Nat) : List Char :=
  if h : n < 10 then [Nat.digitChar n]
  else
    have h10 : n / 10 < n := Nat.div_lt_self (by omega) (by omega)
    decChars (n / 10) ++ [Nat.digitChar (n % 10)]
termination_by n

/-- Decimal decoder: fold digit characters onto an accumulator. -/
def decValAux (acc : Nat) : List Char → Nat
  | [] => acc
  | c :: cs => decValAux (10 * acc + (c.toNat - 48)) cs

/-- The numeric component of a generated incident identifier: decode the
decimal digits after the `"INC-"` prefix. -/
def incident_id_key (s : String) : Nat :=
  decValAux 0 (s.data.drop 4)

/-! ### Concrete fixtures for witnesses and counterexamples -/

/-- Tier-2 candidate, listed first by the roster. -/
def cand_tier2 : Candidate := ⟨"E-2", "Bob", "bob@hospital.example", "555-0002", 2⟩

/-- Tier-1 candidate, listed second by the roster. -/
def cand_tier1 : Candidate := ⟨"E-1", "Alice", "alice@hospital.example", "555-0001", 1⟩

/-- A freshly created incident, still `OPEN`. -/
def inc_open : Incident :=
  { incident_id := "INC-1000", alert_id := "AL-1", patient_id := "P-9",
    severity := "HIGH", status := .OPEN, created_at := some 0 }

/-- An incident that has already been acknowledged. -/
def inc_acknowledged : Incident :=
  { incident_id := "INC-1001", alert_id := "AL-2", patient_id := "P-3",
    severity := "LOW", status := .ACKNOWLEDGED, created_at := some 0,
    acknowledged_at := some 120 }

/-- Roster in which the `EMERGENCY_DOCTOR` query times out (raises) while
`CARDIOLOGIST` has candidates of tiers 2 and 1 and accepts a claim of the
tier-1 candidate. -/
def env_timeout_then_candidates : RosterEnv :=
  ⟨fun role =>
      if role = "EMERGENCY_DOCTOR" then .raises
      else if role = "CARDIOLOGIST" then .response 200 [cand_tier2, cand_tier1]
      else .response 200 [],
   fun eid =>
      if eid = "E-1" then .response 200 ⟨some "HIGH", some "P-9"⟩
      else .response 500 ⟨none, none⟩⟩

/-- Roster in which `EMERGENCY_DOCTOR` reports no available candidate while
`CARDIOLOGIST` has candidates of tiers 2 and 1 and accepts a claim of the
tier-1 candidate. -/
def env_nocand_then_candidates : RosterEnv :=
  ⟨fun role =>
      if role = "EMERGENCY_DOCTOR" then .response 200 []
      else if role = "CARDIOLOGIST" then .response 200 [cand_tier2, cand_tier1]
      else .response 200 [],
   fun eid =>
      if eid = "E-1" then .response 200 ⟨some "HIGH", some "P-9"⟩
      else .response 500 ⟨none, none⟩⟩

/-- Roster with no available staff for any role. -/
def env_no_staff : RosterEnv :=
  ⟨fun _ => .response 200 [], fun _ => .response 500 ⟨none, none⟩⟩

/-! ## Lemmas about decimal rendering of the clock -/

theorem digitChar_toNat (d : Nat) (h : d < 10) : (Nat.digitChar d).toNat = 48 + d := by
  interval_cases d <;> rfl

theorem decChars_toDigitsCore (fuel : Nat) :
    ∀ (n : Nat) (ds : List Char), n < fuel →
      Nat.toDigitsCore 10 fuel n ds = decChars n ++ ds := by
  induction fuel with
  | zero => intro n ds h; omega
  | succ f ih =>
    intro n ds h
    by_cases h10 : n / 10 = 0
    · have hn : n < 10 := by omega
      rw [decChars, dif_pos hn]
      unfold Nat.toDigitsCore
      rw [if_pos h10, Nat.mod_eq_of_lt hn]
      rfl
    · have hn : ¬ n < 10 := by omega
      rw [decChars, dif_neg hn]
      unfold Nat.toDigitsCore
      rw [if_neg h10, ih (n / 10) (Nat.digitChar (n % 10) :: ds) (by omega)]
      simp

theorem decValAux_append (acc : Nat) (l1 l2 : List Char) :
    decValAux acc (l1 ++ l2) = decValAux (decValAux acc l1) l2 := by
  induction l1 generalizing acc with
  | nil => rfl
  | cons c cs ih =>
    rw [List.cons_append]
    show decValAux (10 * acc + (c.toNat - 48)) (cs ++ l2) =
      decValAux (decValAux (10 * acc + (c.toNat - 48)) cs) l2
    exact ih _

theorem decValAux_decChars (n acc : Nat) :
    decValAux acc (decChars n) = acc * 10 ^ (decChars n).length + n := by
  by_cases h : n < 10
  · rw [decChars, dif_pos h]
    show 10 * acc + ((Nat.digitChar n).toNat - 48) = acc * 10 ^ (1 : Nat) + n
    rw [digitChar_toNat n h, pow_one]
    omega
  · have hd : n / 10 < n := Nat.div_lt_self (by omega) (by omega)
    rw [decChars, dif_neg h]
    rw [decValAux_append, List.length_append]
    rw [decValAux_decChars (n / 10) acc]
    show 10 * (acc * 10 ^ (decChars (n / 10)).length + n / 10) +
        ((Nat.digitChar (n % 10)).toNat - 48) =
      acc * 10 ^ ((decChars (n / 10)).length + 1) + n
    rw [digitChar_toNat (n % 10) (Nat.mod_lt n (by omega))]
    have hs : 48 + n % 10 - 48 = n % 10 := by omega
    rw [hs]
    have hdm : 10 * (n / 10) + n % 10 = n := by omega
    have hpow : (10 : Nat) ^ ((decChars (n / 10)).length + 1) =
        10 ^ (decChars (n / 10)).length * 10 := by rw [pow_succ]
    rw [hpow]
    calc 10 * (acc * 10 ^ (decChars (n / 10)).length + n / 10) + n % 10
        = acc * (10 ^ (decChars (n / 10)).length * 10) + (10 * (n / 10) + n % 10) := by ring
      _ = acc * (10 ^ (decChars (n / 10)).length * 10) + n := by rw [hdm]
termination_by n

theorem decChars_value (n : Nat) : decValAux 0 (decChars n) = n := by
  simpa using decValAux_decChars n 0

theorem toDigits_eq_decChars (n : Nat) : Nat.toDigits 10 n = decChars n := by
  rw [Nat.toDigits, decChars_toDigitsCore (n + 1) n [] (Nat.lt_succ_self n), List.append_nil]

/-- The decoder inverts `gen_incident_id`: the numeric component of a
generated identifier is exactly the millisecond clock reading that produced
it. -/
theorem incident_id_key_gen (t : Nat) : incident_id_key (gen_incident_id t) = t := by
  unfold incident_id_key gen_incident_id
  rw [String.data_append]
  have h1 : ("INC-" : String).data = ['I', 'N', 'C', '-'] := rfl
  have h2 : (toString t).data = decChars t := by
    show (Nat.repr t).data = decChars t
    rw [show (Nat.repr t).data = Nat.toDigits 10 t from rfl, toDigits_eq_decChars]
  rw [h1, h2]
  have h3 : (['I', 'N', 'C', '-'] ++ decChars t).drop 4 = decChars t := rfl
  rw [h3]
  exact decChars_value t

/-! ## Lemmas about the assignment loop -/

/-- A role whose query raises aborts the whole loop: the function-level
`except` returns `False`, no further role is queried, nothing is written. -/
theorem auto_assign_loop_cons_raises (env : RosterEnv) (inc : Incident) (alert_type : String)
    (now : Int) (role : String) (rest : List String) (hq : env.query role = .raises) :
    auto_assign_loop env inc alert_type now (role :: rest) = ⟨false, inc, [], [], [role]⟩ := by
  simp only [auto_assign_loop, hq]

/-- A raised claim request likewise aborts the whole loop. -/
theorem auto_assign_loop_cons_claim_raises (env : RosterEnv) (inc : Incident)
    (alert_type : String) (now : Int) (role : String) (rest : List String)
    (c : Candidate) (cs : List Candidate)
    (hq : env.query role = .response 200 (c :: cs))
    (hcl : env.claim (min_by_tier c cs).employee_id = .raises) :
    auto_assign_loop env inc alert_type now (role :: rest) = ⟨false, inc, [], [], [role]⟩ := by
  simp only [auto_assign_loop, hq, hcl]
  simp

/-- A role that falls through (non-200 query, no candidates, or non-200
claim) contributes only its entry in the queried trace; the loop continues
with the remaining roles. -/
theorem auto_assign_loop_cons_fall (env : RosterEnv) (inc : Incident) (alert_type : String)
    (now : Int) (role : String) (rest : List String)
    (h : role_falls_through env role = true) :
    auto_assign_loop env inc alert_type now (role :: rest) =
      { auto_assign_loop env inc alert_type now rest with
        queried := role :: (auto_assign_loop env inc alert_type now rest).queried } := by
  cases hq : env.query role with
  | raises => simp only [role_falls_through, hq] at h; cases h
  | response code cands =>
    by_cases hc : code = 200
    · subst hc
      cases cands with
      | nil => simp only [auto_assign_loop, hq]; simp
      | cons c cs =>
        cases hcl : env.claim (min_by_tier c cs).employee_id with
        | raises => simp only [role_falls_through, hq, hcl] at h; simp at h
        | response acode abody =>
          have hne : ¬ acode = 200 := by
            simp only [role_falls_through, hq, hcl] at h
            simpa using h
          simp only [auto_assign_loop, hq, hcl]
          simp [hne]
    · simp only [auto_assign_loop, hq]
      simp [hc]

/-- A 200 query with candidates followed by a 200 claim stops the loop with a
successful assignment. -/
theorem auto_assign_loop_cons_success (env : RosterEnv) (inc : Incident) (alert_type : String)
    (now : Int) (role : String) (rest : List String) (c : Candidate) (cs : List Candidate)
    (abody : AssignBody)
    (hq : env.query role = .response 200 (c :: cs))
    (hcl : env.claim (min_by_tier c cs).employee_id = .response 200 abody) :
    auto_assign_loop env inc alert_type now (role :: rest) =
      ⟨true, oncall_assign_effect inc (min_by_tier c cs).employee_id,
       [assign_history_entry inc alert_type (min_by_tier c cs) now],
       [assign_notification inc alert_type (min_by_tier c cs) role abody now],
       [role]⟩ := by
  simp only [auto_assign_loop, hq, hcl]
  simp

/-- A prefix of roles that all fall through only prepends its members to the
queried trace. -/
theorem auto_assign_loop_prefix_fall (env : RosterEnv) (inc : Incident) (alert_type : String)
    (now : Int) (pre roles : List String)
    (hpre : ∀ r ∈ pre, role_falls_through env r = true) :
    auto_assign_loop env inc alert_type now (pre ++ roles) =
      { auto_assign_loop env inc alert_type now roles with
        queried := pre ++ (auto_assign_loop env inc alert_type now roles).queried } := by
  induction pre with
  | nil => simp
  | cons p pre ih =>
    rw [List.cons_append,
        auto_assign_loop_cons_fall env inc alert_type now p _ (hpre p (by simp)),
        ih (fun r hr => hpre r (by simp [hr]))]
    rfl

/-! ## Lemmas about tier selection -/

/-- The selected candidate's tier is minimal among the initial candidate and
the remaining list. -/
theorem min_by_tier_le (best : Candidate) (cs : List Candidate) :
    (min_by_tier best cs).tier ≤ best.tier ∧ ∀ x ∈ cs, (min_by_tier best cs).tier ≤ x.tier := by
  induction cs generalizing best with
  | nil => exact ⟨le_refl _, by simp⟩
  | cons c cs ih =>
    obtain ⟨h1, h2⟩ := ih (if c.tier < best.tier then c else best)
    have heq : min_by_tier best (c :: cs) = min_by_tier (if c.tier < best.tier then c else best) cs :=
      rfl
    by_cases hc : c.tier < best.tier
    · rw [if_pos hc] at h1 h2
      refine ⟨?_, ?_⟩
      · rw [heq, if_pos hc]; omega
      · intro x hx
        rw [heq, if_pos hc]
        rcases List.mem_cons.mp hx with rfl | hx'
        · exact h1
        · exact h2 x hx'
    · rw [if_neg hc] at h1 h2
      refine ⟨?_, ?_⟩
      · rw [heq, if_neg hc]; exact h1
      · intro x hx
        rw [heq, if_neg hc]
        rcases List.mem_cons.mp hx with rfl | hx'
        · omega
        · exact h2 x hx'

/-- The selected candidate is the first minimum in roster-reported order:
every candidate listed before it has a strictly greater tier. -/
theorem min_by_tier_first (best : Candidate) (cs : List Candidate) :
    ∃ l1 l2, best :: cs = l1 ++ (min_by_tier best cs) :: l2 ∧
      ∀ x ∈ l1, (min_by_tier best cs).tier < x.tier := by
  induction cs generalizing best with
  | nil => exact ⟨[], [], rfl, by simp⟩
  | cons c cs ih =>
    by_cases hc : c.tier < best.tier
    · have heq : min_by_tier best (c :: cs) = min_by_tier c cs := by
        show min_by_tier (if c.tier < best.tier then c else best) cs = min_by_tier c cs
        rw [if_pos hc]
      obtain ⟨l1, l2, hdec, hlt⟩ := ih c
      refine ⟨best :: l1, l2, ?_, ?_⟩
      · rw [heq, List.cons_append, ← hdec]
      · intro x hx
        rw [heq]
        rcases List.mem_cons.mp hx with rfl | hx'
        · have hm := (min_by_tier_le c cs).1
          omega
        · exact hlt x hx'
    · have heq : min_by_tier best (c :: cs) = min_by_tier best cs := by
        show min_by_tier (if c.tier < best.tier then c else best) cs = min_by_tier best cs
        rw [if_neg hc]
      obtain ⟨l1, l2, hdec, hlt⟩ := ih best
      cases l1 with
      | nil =>
        rw [List.nil_append] at hdec
        injection hdec with hh ht
        refine ⟨[], c :: cs, ?_, by simp⟩
        rw [heq, ← hh]
        rfl
      | cons hd tl =>
        rw [List.cons_append] at hdec
        injection hdec with hh ht
        refine ⟨best :: c :: tl, l2, ?_, ?_⟩
        · rw [heq, List.cons_append, List.cons_append, ← ht]
        · intro x hx
          rw [heq]
          have hbest : (min_by_tier best cs).tier < best.tier := by
            have hb := hlt hd (by simp)
            rw [← hh] at hb
            exact hb
          rcases List.mem_cons.mp hx with rfl | hx'
          · exact hbest
          · rcases List.mem_cons.mp hx' with rfl | hx''
            · omega
            · exact hlt x (List.mem_cons_of_mem hd hx'')

/-! ## Claim theorems -/

/-- C9 (counterexample): two distinct creation calls — different alerts — that
observe the same millisecond clock reading (`int(time.time() * 1000)` is
millisecond-resolution) produce the *same* incident identifier `INC-1000`, so
identifiers generated at creation are not unique per creation call. -/
theorem C9_counterexample :
    (⟨"AL-1", "P-1", "FEVER_HIGH", "LOW"⟩ : Alert) ≠ ⟨"AL-2", "P-2", "FEVER_HIGH", "LOW"⟩ ∧
    (create_incident_from_alert true env_no_staff ⟨"AL-1", "P-1", "FEVER_HIGH", "LOW"⟩
        1000 0).incident_id =
      (create_incident_from_alert true env_no_staff ⟨"AL-2", "P-2", "FEVER_HIGH", "LOW"⟩
        1000 0).incident_id ∧
    (create_incident_from_alert true env_no_staff ⟨"AL-1", "P-1", "FEVER_HIGH", "LOW"⟩
        1000 0).incident_id = some "INC-1000" := by
  refine ⟨by decide, rfl, by decide⟩

/-- C9 (amended): identifiers are generated from the millisecond wall clock,
so two creation calls that observe strictly increasing clock readings produce
distinct identifiers whose embedded numeric timestamps are strictly
increasing in creation order; two calls within the same millisecond collide
(see the counterexample). -/
theorem C9_ids_unique_monotone_when_clock_increases (t1 t2 : Nat) (h : t1 < t2)
    (env : RosterEnv) (a1 a2 : Alert) (now : Int) :
    gen_incident_id t1 ≠ gen_incident_id t2 ∧
    incident_id_key (gen_incident_id t1) < incident_id_key (gen_incident_id t2) ∧
    (create_incident_from_alert true env a1 t1 now).incident_id ≠
      (create_incident_from_alert true env a2 t2 now).incident_id := by
  have k1 := incident_id_key_gen t1
  have k2 := incident_id_key_gen t2
  have hne : gen_incident_id t1 ≠ gen_incident_id t2 := by
    intro he
    have hk := congrArg incident_id_key he
    rw [k1, k2] at hk
    omega
  refine ⟨hne, ?_, ?_⟩
  · rw [k1, k2]; exact h
  · intro he
    apply hne
    have h1 : (create_incident_from_alert true env a1 t1 now).incident_id =
        some (gen_incident_id t1) := rfl
    have h2 : (create_incident_from_alert true env a2 t2 now).incident_id =
        some (gen_incident_id t2) := rfl
    rw [h1, h2] at he
    exact Option.some.inj he

/-- C9 witness: the amended statement at the digit-length boundary 999 → 1000. -/
theorem C9_witness :
    gen_incident_id 999 ≠ gen_incident_id 1000 ∧
    incident_id_key (gen_incident_id 999) < incident_id_key (gen_incident_id 1000) := by
  have h := C9_ids_unique_monotone_when_clock_increases 999 1000 (by omega) env_no_staff
    ⟨"AL-1", "P-1", "FEVER_HIGH", "LOW"⟩ ⟨"AL-2", "P-2", "FEVER_HIGH", "LOW"⟩ 0
  exact ⟨h.1, h.2.1⟩

/-- C1: in any auto-assignment run whose roster claim request succeeds (after
any earlier roles fell through), the orchestrator run applies the `assign`
transition — the incident goes from `OPEN` to `ASSIGNED` with the claimed
staff member's identifier recorded — writes exactly one HistoryEntry tagged
`ASSIGNED`, enqueues one notification, returns success, and stops iterating:
the roles after the successful one are never queried. -/
theorem C1_successful_claim_assigns (env : RosterEnv) (inc : Incident) (alert_type : String)
    (now : Int) (pre rest : List String) (role : String) (c : Candidate) (cs : List Candidate)
    (abody : AssignBody)
    (hopen : inc.status = .OPEN)
    (hpre : ∀ r ∈ pre, role_falls_through env r = true)
    (hq : env.query role = .response 200 (c :: cs))
    (hcl : env.claim (min_by_tier c cs).employee_id = .response 200 abody) :
    auto_assign_loop env inc alert_type now (pre ++ role :: rest) =
      ⟨true,
       { inc with status := .ASSIGNED,
                  assigned_employee_id := some (min_by_tier c cs).employee_id },
       [assign_history_entry inc alert_type (min_by_tier c cs) now],
       [assign_notification inc alert_type (min_by_tier c cs) role abody now],
       pre ++ [role]⟩ ∧
    (assign_history_entry inc alert_type (min_by_tier c cs) now).action = "ASSIGNED" := by
  constructor
  · rw [auto_assign_loop_prefix_fall env inc alert_type now pre (role :: rest) hpre,
        auto_assign_loop_cons_success env inc alert_type now role rest c cs abody hq hcl]
    unfold oncall_assign_effect
    rw [if_pos hopen]
  · rfl

/-- C1 witness: `EMERGENCY_DOCTOR` reports no candidates, `CARDIOLOGIST`
accepts the claim of its tier-1 candidate. -/
theorem C1_witness :
    auto_assign_loop env_nocand_then_candidates inc_open "CARDIAC_ARREST" 7
        (["EMERGENCY_DOCTOR"] ++ "CARDIOLOGIST" :: []) =
      ⟨true,
       { inc_open with status := .ASSIGNED,
                       assigned_employee_id :=
                         some (min_by_tier cand_tier2 [cand_tier1]).employee_id },
       [assign_history_entry inc_open "CARDIAC_ARREST" (min_by_tier cand_tier2 [cand_tier1]) 7],
       [assign_notification inc_open "CARDIAC_ARREST" (min_by_tier cand_tier2 [cand_tier1])
          "CARDIOLOGIST" ⟨some "HIGH", some "P-9"⟩ 7],
       ["EMERGENCY_DOCTOR"] ++ ["CARDIOLOGIST"]⟩ :=
  (C1_successful_claim_assigns env_nocand_then_candidates inc_open "CARDIAC_ARREST" 7
    ["EMERGENCY_DOCTOR"] [] "CARDIOLOGIST" cand_tier2 [cand_tier1] ⟨some "HIGH", some "P-9"⟩
    rfl (by intro r hr; simp at hr; subst hr; rfl) (by decide) (by decide)).1

/-- C3 (counterexample): for `CARDIAC_ARREST` with roles
`[EMERGENCY_DOCTOR, CARDIOLOGIST]`, a timed-out `EMERGENCY_DOCTOR` query is
*not* treated like "no candidate available": the run stops without ever
querying `CARDIOLOGIST` and reports overall failure, while the same roster
with a genuine empty candidate list for `EMERGENCY_DOCTOR` proceeds to
`CARDIOLOGIST` and assigns successfully. -/
theorem C3_counterexample :
    (auto_assign_incident env_timeout_then_candidates inc_open "CARDIAC_ARREST" 0).success =
      false ∧
    (auto_assign_incident env_timeout_then_candidates inc_open "CARDIAC_ARREST" 0).queried =
      ["EMERGENCY_DOCTOR"] ∧
    (auto_assign_incident env_timeout_then_candidates inc_open "CARDIAC_ARREST" 0).incident.status =
      .OPEN ∧
    (auto_assign_incident env_nocand_then_candidates inc_open "CARDIAC_ARREST" 0).success =
      true := by
  refine ⟨by decide, by decide, by decide, by decide⟩

/-- C3 (amended): a non-2xx response — from the availability query or from the
claim request — and an empty candidate list are treated identically and fall
through to the next role; a raised call (timeout or connection error) instead
aborts the remaining role iteration via the function-level `except` and makes
the whole operation return failure, though still as a returned `False` rather
than an exception, with the incident untouched. -/
theorem C3_fallthrough_vs_timeout (env : RosterEnv) (inc : Incident)
    (alert_type role : String) (now : Int) (rest : List String) :
    (∀ code cands, env.query role = .response code cands → code ≠ 200 →
      auto_assign_loop env inc alert_type now (role :: rest) =
        { auto_assign_loop env inc alert_type now rest with
          queried := role :: (auto_assign_loop env inc alert_type now rest).queried }) ∧
    (env.query role = .response 200 [] →
      auto_assign_loop env inc alert_type now (role :: rest) =
        { auto_assign_loop env inc alert_type now rest with
          queried := role :: (auto_assign_loop env inc alert_type now rest).queried }) ∧
    (∀ c cs acode abody, env.query role = .response 200 (c :: cs) →
      env.claim (min_by_tier c cs).employee_id = .response acode abody → acode ≠ 200 →
      auto_assign_loop env inc alert_type now (role :: rest) =
        { auto_assign_loop env inc alert_type now rest with
          queried := role :: (auto_assign_loop env inc alert_type now rest).queried }) ∧
    (env.query role = .raises →
      auto_assign_loop env inc alert_type now (role :: rest) = ⟨false, inc, [], [], [role]⟩) ∧
    (∀ c cs, env.query role = .response 200 (c :: cs) →
      env.claim (min_by_tier c cs).employee_id = .raises →
      auto_assign_loop env inc alert_type now (role :: rest) = ⟨false, inc, [], [], [role]⟩) := by
  refine ⟨?_, ?_, ?_, ?_, ?_⟩
  · intro code cands hq hne
    refine auto_assign_loop_cons_fall env inc alert_type now role rest ?_
    simp only [role_falls_through, hq]
    simp [hne]
  · intro hq
    refine auto_assign_loop_cons_fall env inc alert_type now role rest ?_
    simp [role_falls_through, hq]
  · intro c cs acode abody hq hcl hne
    refine auto_assign_loop_cons_fall env inc alert_type now role rest ?_
    simp only [role_falls_through, hq, hcl]
    simp [hne]
  · intro hq
    exact auto_assign_loop_cons_raises env inc alert_type now role rest hq
  · intro c cs hq hcl
    exact auto_assign_loop_cons_claim_raises env inc alert_type now role rest c cs hq hcl

/-- C3 witness: the timed-out query aborts the iteration at once. -/
theorem C3_witness :
    auto_assign_loop env_timeout_then_candidates inc_open "CARDIAC_ARREST" 0
        ("EMERGENCY_DOCTOR" :: ["CARDIOLOGIST"]) =
      ⟨false, inc_open, [], [], ["EMERGENCY_DOCTOR"]⟩ :=
  (C3_fallthrough_vs_timeout env_timeout_then_candidates inc_open "CARDIAC_ARREST"
    "EMERGENCY_DOCTOR" 0 ["CARDIOLOGIST"]).2.2.2.1 (by decide)

/-- C8: role priority and tier selection.  `CARDIAC_ARREST` maps to
`[EMERGENCY_DOCTOR, CARDIOLOGIST]`; an unmapped category defaults to
`[NURSE]`; the selected candidate has the minimum tier with ties broken by
the first minimum in roster order; and in the concrete scenario where
`EMERGENCY_DOCTOR` has no candidate and `CARDIOLOGIST` reports tiers 2 then
1, both roles are queried in order and the tier-1 candidate `E-1` is
selected, with the incident moving `OPEN → ASSIGNED`. -/
theorem C8_priority_order_and_tier_selection :
    ALERT_ROLE_MAPPING "CARDIAC_ARREST" = ["EMERGENCY_DOCTOR", "CARDIOLOGIST"] ∧
    (∀ a, a ∉ mapped_alert_types → ALERT_ROLE_MAPPING a = ["NURSE"]) ∧
    (∀ (c : Candidate) (cs : List Candidate),
      (∀ x ∈ c :: cs, (min_by_tier c cs).tier ≤ x.tier) ∧
      ∃ l1 l2, c :: cs = l1 ++ (min_by_tier c cs) :: l2 ∧
        ∀ x ∈ l1, (min_by_tier c cs).tier < x.tier) ∧
    ((auto_assign_incident env_nocand_then_candidates inc_open "CARDIAC_ARREST" 0).queried =
        ["EMERGENCY_DOCTOR", "CARDIOLOGIST"] ∧
      (auto_assign_incident env_nocand_then_candidates inc_open "CARDIAC_ARREST" 0).success =
        true ∧
      (auto_assign_incident env_nocand_then_candidates inc_open
          "CARDIAC_ARREST" 0).incident.status = .ASSIGNED ∧
      (auto_assign_incident env_nocand_then_candidates inc_open
          "CARDIAC_ARREST" 0).incident.assigned_employee_id = some "E-1" ∧
      cand_tier2.tier = 2 ∧ cand_tier1.tier = 1) := by
  refine ⟨rfl, ?_, ?_, by decide, by decide, by decide, by decide, by decide, by decide⟩
  · intro a ha
    simp only [mapped_alert_types, List.mem_cons, List.not_mem_nil, or_false] at ha
    push_neg at ha
    obtain ⟨h1, h2, h3, h4, h5, h6, h7, h8, h9, h10, h11, h12, h13, h14, h15, h16,
      h17, h18, h19, h20, h21, h22, h23, h24, h25, h26, h27, h28, h29, h30, h31, h32⟩ := ha
    simp only [ALERT_ROLE_MAPPING, h1, h2, h3, h4, h5, h6, h7, h8, h9, h10, h11, h12,
      h13, h14, h15, h16, h17, h18, h19, h20, h21, h22, h23, h24, h25, h26, h27, h28,
      h29, h30, h31, h32, if_false]
  · intro c cs
    refine ⟨?_, min_by_tier_first c cs⟩
    intro x hx
    rcases List.mem_cons.mp hx with hxc | hx'
    · rw [hxc]
      exact (min_by_tier_le c cs).1
    · exact (min_by_tier_le c cs).2 x hx'

/-- C8 witness: category `"X_UNKNOWN"` is unmapped and defaults to `[NURSE]`;
the tier-selection facts at the two concrete candidates. -/
theorem C8_witness :
    ALERT_ROLE_MAPPING "X_UNKNOWN" = ["NURSE"] ∧
    (min_by_tier cand_tier2 [cand_tier1]).tier ≤ cand_tier2.tier := by
  have h := C8_priority_order_and_tier_selection
  refine ⟨h.2.1 "X_UNKNOWN" (by decide), ?_⟩
  exact (h.2.2.1 cand_tier2 [cand_tier1]).1 cand_tier2 (by simp)

/-- Whatever `add_note` writes back keeps the status of the row it read: the
endpoint never touches the status column. -/
theorem add_note_preserves_status (eid en nt : Option String) (h m s : Nat) (now : Int)
    (inc inc' : Incident)
    (hres : (add_note (some inc) eid en nt h m s now).store = some inc') :
    inc'.status = inc.status := by
  unfold add_note at hres
  split at hres
  · have h2 : some inc = some inc' := hres
    rw [← Option.some.inj h2]
  · have h2 : some ({ inc with intermediate_notes :=
        inc.intermediate_notes ++ [stored_note h m s (nt.getD "")] } : Incident) = some inc' :=
      hres
    rw [← Option.some.inj h2]

/-- C2: actor-driven operations move the status only along the §4.1 edges.
An acknowledge from a status without an acknowledge edge, a start from a
status without a start edge, and a resolve from `RESOLVED` all fail with a
status-precondition error (§7 kind `InvalidTransition`; for resolve the §4.1
name is `AlreadyResolved`) and leave the row — in particular the status and
`acknowledged_at` — unchanged; with an allowed edge they move to the edge's
target; `add_note` never changes the status. -/
theorem C2_transitions_follow_edges (inc : Incident) (eid en nt : Option String)
    (rn : String) (h m s : Nat) (now : Int) :
    (allowed_edge inc.status .ACKNOWLEDGED = false →
      (acknowledge_incident (some inc) eid en now).store = some inc ∧
      ∃ msg, (acknowledge_incident (some inc) eid en now).response =
          .error (.InvalidTransition msg) ∧
        (ApiError.InvalidTransition msg).kind = .invalidTransition) ∧
    (allowed_edge inc.status .ACKNOWLEDGED = true →
      ∃ inc', (acknowledge_incident (some inc) eid en now).store = some inc' ∧
        inc'.status = .ACKNOWLEDGED) ∧
    (allowed_edge inc.status .IN_PROGRESS = false →
      (start_incident (some inc) eid en nt now).store = some inc ∧
      ∃ msg, (start_incident (some inc) eid en nt now).response =
        .error (.InvalidTransition msg)) ∧
    (allowed_edge inc.status .IN_PROGRESS = true →
      ∃ inc', (start_incident (some inc) eid en nt now).store = some inc' ∧
        inc'.status = .IN_PROGRESS) ∧
    (10 ≤ (py_strip rn).length →
      (allowed_edge inc.status .RESOLVED = false →
        (resolve_incident (some inc) eid en (some rn) now).store = some inc ∧
        (resolve_incident (some inc) eid en (some rn) now).response = .error .AlreadyResolved ∧
        ApiError.AlreadyResolved.kind = .invalidTransition) ∧
      (allowed_edge inc.status .RESOLVED = true →
        ∃ inc', (resolve_incident (some inc) eid en (some rn) now).store = some inc' ∧
          inc'.status = .RESOLVED)) ∧
    (∀ inc', (add_note (some inc) eid en nt h m s now).store = some inc' →
      inc'.status = inc.status) ∧
    (inc.status = .ACKNOWLEDGED →
      (acknowledge_incident (some inc) eid en now).store = some inc ∧
      (∃ msg, (acknowledge_incident (some inc) eid en now).response =
        .error (.InvalidTransition msg)) ∧
      ∀ inc', (acknowledge_incident (some inc) eid en now).store = some inc' →
        inc'.acknowledged_at = inc.acknowledged_at) := by
  refine ⟨?_, ?_, ?_, ?_, ?_, ?_, ?_⟩
  · intro hedge
    have hcond : ∀ st : Status, allowed_edge st .ACKNOWLEDGED = false →
        st ≠ .ASSIGNED ∧ st ≠ .OPEN := by decide
    simp only [acknowledge_incident]
    rw [if_pos (hcond inc.status hedge)]
    exact ⟨rfl, "Cannot acknowledge incident with status", rfl, rfl⟩
  · intro hedge
    have hcond : ∀ st : Status, allowed_edge st .ACKNOWLEDGED = true →
        ¬(st ≠ .ASSIGNED ∧ st ≠ .OPEN) := by decide
    simp only [acknowledge_incident]
    rw [if_neg (hcond inc.status hedge)]
    exact ⟨_, rfl, rfl⟩
  · intro hedge
    have hcond : ∀ st : Status, allowed_edge st .IN_PROGRESS = false →
        st ≠ .ACKNOWLEDGED := by decide
    simp only [start_incident]
    rw [if_pos (hcond inc.status hedge)]
    exact ⟨rfl, "Cannot start incident with status. Must be ACKNOWLEDGED first.", rfl⟩
  · intro hedge
    have hcond : ∀ st : Status, allowed_edge st .IN_PROGRESS = true →
        ¬(st ≠ .ACKNOWLEDGED) := by decide
    simp only [start_incident]
    rw [if_neg (hcond inc.status hedge)]
    exact ⟨_, rfl, rfl⟩
  · intro hrn
    have hval : ¬((some rn : Option String) = none ∨
        (py_strip ((some rn : Option String).getD "")).length < 10) := by
      simp only [Option.getD_some]
      push_neg
      exact ⟨Option.some_ne_none rn, by omega⟩
    constructor
    · intro hedge
      have hres : inc.status = .RESOLVED := by
        have hc : ∀ st : Status, allowed_edge st .RESOLVED = false → st = .RESOLVED := by decide
        exact hc inc.status hedge
      simp only [resolve_incident]
      rw [if_neg hval, if_pos hres]
      exact ⟨rfl, rfl, rfl⟩
    · intro hedge
      have hres : inc.status ≠ .RESOLVED := by
        have hc : ∀ st : Status, allowed_edge st .RESOLVED = true → st ≠ .RESOLVED := by decide
        exact hc inc.status hedge
      simp only [resolve_incident]
      rw [if_neg hval, if_neg hres]
      exact ⟨_, rfl, rfl⟩
  · exact fun inc' h' => add_note_preserves_status eid en nt h m s now inc inc' h'
  · intro hst
    have hcond : inc.status ≠ .ASSIGNED ∧ inc.status ≠ .OPEN := by
      rw [hst]; exact ⟨by decide, by decide⟩
    simp only [acknowledge_incident]
    rw [if_pos hcond]
    refine ⟨rfl, ⟨"Cannot acknowledge incident with status", rfl⟩, ?_⟩
    intro inc' h'
    rw [← Option.some.inj h']

/-- C2 witness: a second acknowledge on an `ACKNOWLEDGED` incident leaves the
row unchanged, and a start on an `OPEN` incident leaves the row unchanged. -/
theorem C2_witness :
    (acknowledge_incident (some inc_acknowledged) none none 5).store =
      some inc_acknowledged ∧
    (start_incident (some inc_open) none none none 5).store = some inc_open := by
  have h1 := C2_transitions_follow_edges inc_acknowledged none none none "0123456789" 1 2 3 5
  have h2 := C2_transitions_follow_edges inc_open none none none "0123456789" 1 2 3 5
  exact ⟨(h1.2.2.2.2.2.2 rfl).1, (h2.2.2.1 (by decide)).1⟩

/-- C4: the ingestion callback acks exactly when deserialization succeeds; a
raised deserialization triggers `basic_nack(requeue=False)` — dropped, not
retried; on the ack path the processing is `create` followed by the
auto-assignment orchestrator run on the freshly created `OPEN` incident. -/
theorem C4_ingestion_ack_and_drop (db_ok : Bool) (env : RosterEnv) (alert : Alert)
    (clock_ms : Nat) (now : Int) :
    (process_alert_message db_ok env (some alert) clock_ms now).1 = .acked ∧
    (process_alert_message db_ok env (some alert) clock_ms now).2 =
      create_incident_from_alert db_ok env alert clock_ms now ∧
    (process_alert_message db_ok env none clock_ms now).1 = .nacked_no_requeue ∧
    (db_ok = true →
      (create_incident_from_alert db_ok env alert clock_ms now).incident =
        some (auto_assign_incident env (new_incident alert clock_ms now)
          alert.alert_type now).incident ∧
      (new_incident alert clock_ms now).status = .OPEN) := by
  refine ⟨rfl, rfl, rfl, ?_⟩
  intro hdb
  subst hdb
  exact ⟨rfl, rfl⟩

/-- C4 witness: processing a deserializable alert is acked;
an undeserializable body is nacked without requeue. -/
theorem C4_witness :
    (process_alert_message true env_no_staff
        (some ⟨"AL-1", "P-1", "FEVER_HIGH", "LOW"⟩) 1000 0).1 = .acked ∧
    (process_alert_message true env_no_staff none 1000 0).1 = .nacked_no_requeue ∧
    (create_incident_from_alert true env_no_staff
        ⟨"AL-1", "P-1", "FEVER_HIGH", "LOW"⟩ 1000 0).incident =
      some (auto_assign_incident env_no_staff
        (new_incident ⟨"AL-1", "P-1", "FEVER_HIGH", "LOW"⟩ 1000 0) "FEVER_HIGH" 0).incident := by
  have h := C4_ingestion_ack_and_drop true env_no_staff ⟨"AL-1", "P-1", "FEVER_HIGH", "LOW"⟩ 1000 0
  exact ⟨h.1, h.2.2.1, (h.2.2.2 rfl).1⟩

/-- C5: `resolve` rejects with `ValidationError` exactly the notes whose
stripped length is under 10 (so a stripped length of exactly 10 passes
validation); with valid notes it rejects an already-`RESOLVED` incident with
`AlreadyResolved`; otherwise, from any non-terminal status, it writes status
`RESOLVED`, stamps `resolved_at`, records the resolving staff id, and runs
the full time-metric recalculation; on either failure the row is unchanged. -/
theorem C5_resolve_validation_and_success (inc : Incident) (eid en : Option String)
    (rn : String) (now : Int) :
    ((py_strip rn).length < 10 →
      (resolve_incident (some inc) eid en (some rn) now).store = some inc ∧
      (resolve_incident (some inc) eid en (some rn) now).response =
        .error (.ValidationError "Resolution notes are required (minimum 10 characters)")) ∧
    (10 ≤ (py_strip rn).length →
      (∀ msg, (resolve_incident (some inc) eid en (some rn) now).response ≠
        .error (.ValidationError msg)) ∧
      (inc.status = .RESOLVED →
        (resolve_incident (some inc) eid en (some rn) now).store = some inc ∧
        (resolve_incident (some inc) eid en (some rn) now).response = .error .AlreadyResolved) ∧
      (inc.status ≠ .RESOLVED →
        (resolve_incident (some inc) eid en (some rn) now).store =
          some (calculate_time_metrics
            { inc with
              status := .RESOLVED
              resolved_at := some now
              resolution_notes := some rn
              resolved_by_employee_id := eid }) ∧
        (resolve_incident (some inc) eid en (some rn) now).history =
          [⟨inc.incident_id, eid, en, "RESOLVED", some inc.status, some .RESOLVED,
            some rn, now⟩])) := by
  constructor
  · intro hlen
    have hval : ((some rn : Option String) = none ∨
        (py_strip ((some rn : Option String).getD "")).length < 10) := by
      right
      simpa using hlen
    simp only [resolve_incident]
    rw [if_pos hval]
    exact ⟨rfl, rfl⟩
  · intro hlen
    have hval : ¬((some rn : Option String) = none ∨
        (py_strip ((some rn : Option String).getD "")).length < 10) := by
      simp only [Option.getD_some]
      push_neg
      exact ⟨Option.some_ne_none rn, by omega⟩
    refine ⟨?_, ?_, ?_⟩
    · intro msg
      simp only [resolve_incident]
      rw [if_neg hval]
      by_cases hres : inc.status = .RESOLVED
      · rw [if_pos hres]; simp
      · rw [if_neg hres]; simp
    · intro hres
      simp only [resolve_incident]
      rw [if_neg hval, if_pos hres]
      exact ⟨rfl, rfl⟩
    · intro hres
      simp only [resolve_incident]
      rw [if_neg hval, if_neg hres]
      exact ⟨rfl, rfl⟩

/-- C5 witness: notes of stripped length exactly 10 resolve an acknowledged
incident; a 9-character note is rejected with the row unchanged. -/
theorem C5_witness :
    (resolve_incident (some inc_acknowledged) (some "E-1") (some "Alice")
        (some "0123456789") 600).store =
      some (calculate_time_metrics
        { inc_acknowledged with
          status := .RESOLVED
          resolved_at := some 600
          resolution_notes := some "0123456789"
          resolved_by_employee_id := some "E-1" }) ∧
    (resolve_incident (some inc_acknowledged) (some "E-1") (some "Alice")
        (some "012345678") 600).store = some inc_acknowledged := by
  have h1 := C5_resolve_validation_and_success inc_acknowledged (some "E-1") (some "Alice")
    "0123456789" 600
  have h2 := C5_resolve_validation_and_success inc_acknowledged (some "E-1") (some "Alice")
    "012345678" 600
  exact ⟨((h1.2 (by decide)).2.2 (by decide)).1, (h2.1 (by decide)).1⟩

/-- C6: from any non-terminal status, `addNote` rejects an empty or
whitespace-only note with `ValidationError` and leaves the row unchanged; a
non-blank note is appended at the end of `intermediate_notes` without
changing the status, and a second note lands after the first — notes are
appended in call order, never reordered or dropped. -/
theorem C6_add_note_appends_in_order (inc : Incident) (eid en : Option String) (n1 n2 : String)
    (h1 m1 s1 h2 m2 s2 : Nat) (t1 t2 : Int) (hterm : inc.status ≠ .RESOLVED) :
    (py_strip n1 = "" →
      (add_note (some inc) eid en (some n1) h1 m1 s1 t1).store = some inc ∧
      (add_note (some inc) eid en (some n1) h1 m1 s1 t1).response =
        .error (.ValidationError "Note cannot be empty")) ∧
    (py_strip n1 ≠ "" →
      (add_note (some inc) eid en (some n1) h1 m1 s1 t1).store =
        some { inc with intermediate_notes :=
          inc.intermediate_notes ++ [stored_note h1 m1 s1 n1] } ∧
      ({ inc with intermediate_notes :=
          inc.intermediate_notes ++ [stored_note h1 m1 s1 n1] } : Incident).status =
        inc.status ∧
      (py_strip n2 ≠ "" →
        (add_note (some { inc with intermediate_notes :=
            inc.intermediate_notes ++ [stored_note h1 m1 s1 n1] }) eid en (some n2)
          h2 m2 s2 t2).store =
          some { inc with intermediate_notes :=
            inc.intermediate_notes ++ [stored_note h1 m1 s1 n1, stored_note h2 m2 s2 n2] })) := by
  constructor
  · intro hblank
    have hval : ((some n1 : Option String) = none ∨
        py_strip ((some n1 : Option String).getD "") = "") := by
      right
      simpa using hblank
    simp only [add_note]
    rw [if_pos hval]
    exact ⟨rfl, rfl⟩
  · intro hn1
    have hval : ¬((some n1 : Option String) = none ∨
        py_strip ((some n1 : Option String).getD "") = "") := by
      simp only [Option.getD_some]
      push_neg
      exact ⟨Option.some_ne_none n1, hn1⟩
    refine ⟨?_, rfl, ?_⟩
    · simp only [add_note]
      rw [if_neg hval]
      exact rfl
    · intro hn2
      have hval2 : ¬((some n2 : Option String) = none ∨
          py_strip ((some n2 : Option String).getD "") = "") := by
        simp only [Option.getD_some]
        push_neg
        exact ⟨Option.some_ne_none n2, hn2⟩
      simp only [add_note]
      rw [if_neg hval2]
      simp [List.append_assoc]

/-- C6 witness: two notes land in call order on an `OPEN` incident. -/
theorem C6_witness :
    (add_note (some { inc_open with intermediate_notes :=
        inc_open.intermediate_notes ++ [stored_note 10 30 0 "checking vitals"] })
      none none (some "gave oxygen") 10 45 0 6).store =
      some { inc_open with intermediate_notes :=
        inc_open.intermediate_notes ++
          [stored_note 10 30 0 "checking vitals", stored_note 10 45 0 "gave oxygen"] } := by
  have h := C6_add_note_appends_in_order inc_open none none "checking vitals" "gave oxygen"
    10 30 0 10 45 0 5 6 (by decide)
  exact ((h.2 (by decide)).2.2 (by decide))

/-- C7: the three durations are a pure function of the row's timestamps:
`response = acknowledged − created` and `total = resolved − created` when the
operands are set, `resolution = resolved − acknowledged` only when both are
set (`None` when the incident was never acknowledged); at
created = T0, acknowledged = T0+120s, resolved = T0+600s they are
120, 480 and 600 seconds. -/
theorem C7_metrics_pure_function (inc inc2 : Incident) (t0 : Int) :
    (inc.created_at = inc2.created_at → inc.acknowledged_at = inc2.acknowledged_at →
      inc.resolved_at = inc2.resolved_at →
      ((calculate_time_metrics inc).response_time_seconds =
          (calculate_time_metrics inc2).response_time_seconds ∧
        (calculate_time_metrics inc).resolution_time_seconds =
          (calculate_time_metrics inc2).resolution_time_seconds ∧
        (calculate_time_metrics inc).total_time_seconds =
          (calculate_time_metrics inc2).total_time_seconds)) ∧
    (∀ a c, inc.acknowledged_at = some a → inc.created_at = some c →
      (calculate_time_metrics inc).response_time_seconds = some (a - c)) ∧
    (inc.acknowledged_at = none →
      (calculate_time_metrics inc).resolution_time_seconds = none) ∧
    (∀ r a, inc.resolved_at = some r → inc.acknowledged_at = some a →
      (calculate_time_metrics inc).resolution_time_seconds = some (r - a)) ∧
    (∀ r c, inc.resolved_at = some r → inc.created_at = some c →
      (calculate_time_metrics inc).total_time_seconds = some (r - c)) ∧
    (inc.created_at = some t0 → inc.acknowledged_at = some (t0 + 120) →
      inc.resolved_at = some (t0 + 600) →
      ((calculate_time_metrics inc).response_time_seconds = some 120 ∧
        (calculate_time_metrics inc).resolution_time_seconds = some 480 ∧
        (calculate_time_metrics inc).total_time_seconds = some 600)) := by
  refine ⟨?_, ?_, ?_, ?_, ?_, ?_⟩
  · intro hc ha hr
    simp only [calculate_time_metrics]
    rw [hc, ha, hr]
    exact ⟨rfl, rfl, rfl⟩
  · intro a c ha hc
    simp only [calculate_time_metrics]
    rw [ha, hc]
  · intro ha
    simp only [calculate_time_metrics]
    rw [ha]
    cases inc.resolved_at <;> rfl
  · intro r a hr ha
    simp only [calculate_time_metrics]
    rw [hr, ha]
  · intro r c hr hc
    simp only [calculate_time_metrics]
    rw [hr, hc]
  · intro hc ha hr
    simp only [calculate_time_metrics]
    rw [hc, ha, hr]
    refine ⟨?_, ?_, ?_⟩
    · have he : t0 + 120 - t0 = (120 : Int) := by ring
      simp [he]
    · have he : t0 + 600 - (t0 + 120) = (480 : Int) := by ring
      simp [he]
    · have he : t0 + 600 - t0 = (600 : Int) := by ring
      simp [he]

/-- C7 witness: the concrete instance T0 = 0. -/
theorem C7_witness :
    (calculate_time_metrics
        { inc_acknowledged with resolved_at := some 600 }).response_time_seconds = some 120 ∧
    (calculate_time_metrics
        { inc_acknowledged with resolved_at := some 600 }).resolution_time_seconds = some 480 ∧
    (calculate_time_metrics
        { inc_acknowledged with resolved_at := some 600 }).total_time_seconds = some 600 := by
  have h := C7_metrics_pure_function { inc_acknowledged with resolved_at := some 600 } inc_open 0
  exact h.2.2.2.2.2 (by decide) (by decide) (by decide)

/-- C10: a successful `addNote` does not store the submitted text itself: the
string appended to `intermediate_notes` is the note prefixed with the
wall-clock stamp `"[HH:MM:SS] "`, while the HistoryEntry of the same call
records the raw note — so the stored note sequence never round-trips the
submitted text. -/
theorem C10_stored_note_prefixed (inc : Incident) (eid en : Option String) (n : String)
    (h m s : Nat) (now : Int) (hn : py_strip n ≠ "") :
    (add_note (some inc) eid en (some n) h m s now).store =
      some { inc with intermediate_notes :=
        inc.intermediate_notes ++ [stored_note h m s n] } ∧
    (add_note (some inc) eid en (some n) h m s now).history =
      [⟨inc.incident_id, eid, en, "NOTE_ADDED", some inc.status, some inc.status,
        some n, now⟩] ∧
    stored_note h m s n = "[" ++ format_hms h m s ++ "] " ++ n ∧
    stored_note h m s n ≠ n := by
  have hval : ¬((some n : Option String) = none ∨
      py_strip ((some n : Option String).getD "") = "") := by
    simp only [Option.getD_some]
    push_neg
    exact ⟨Option.some_ne_none n, hn⟩
  refine ⟨?_, ?_, rfl, ?_⟩
  · simp only [add_note]
    rw [if_neg hval]
    exact rfl
  · simp only [add_note]
    rw [if_neg hval]
    exact rfl
  · intro heq
    have hlen := congrArg String.length heq
    simp only [stored_note, String.length_append] at hlen
    have e1 : ("[" : String).length = 1 := rfl
    have e2 : ("] " : String).length = 2 := rfl
    rw [e1, e2] at hlen
    omega

/-- C10 witness: the stored string differs from the submitted note. -/
theorem C10_witness :
    stored_note 10 30 0 "checking vitals" ≠ "checking vitals" := by
  have h := C10_stored_note_prefixed inc_open none none "checking vitals" 10 30 0 5 (by decide)
  exact h.2.2.2

end IncidentService
